import Mathlib

/-!
A shallow embedding of the qdrant-pdf-uploader pipeline (`src/src/main.rs`).

The whole program is one `main` function: parse command-line arguments,
extract PDF text, split it into token-bounded chunks (third-party
`text_splitter` crate), connect to a Qdrant store (with an interactive
bootstrap loop), ensure the target collection exists (with an interactive
clear-vs-keep prompt), embed the chunks, build payload-bearing points and
upsert them in batches of 6.

External collaborators (PDF extraction, the chunker, the embedding model,
store reachability, the operator's stdin lines, UUID generation, per-batch
acknowledgment, and the store's initial contents) are passed in as explicit
functions/data in a `Collaborators` record, so that `runMain` is a pure
function of the argument list and the collaborator behaviours.  Stdout is
modelled as a list of printed lines, and calls against the vector store as
a list of `StoreOp` operations.
-/

namespace QdrantPdfUploader

/-- A point payload, `src/src/main.rs` lines 172-177:
`{file_name, text, chunk_number}`. -/
structure Payload where
  file_name : String
  text : String
  chunk_number : Nat
deriving DecidableEq, Repr

/-- A Qdrant point: id, embedding vector, payload (`PointStruct::new`, line 178). -/
structure PointStruct where
  id : String
  vector : List Float
  payload : Payload

/-- The collection distance metric; the program always uses cosine (line 143). -/
inductive Distance where
  | cosine
deriving DecidableEq, Repr

/-- One call issued against the vector store. -/
inductive StoreOp where
  | listCollections
  | deleteCollection (name : String)
  | createCollection (name : String) (size : Nat) (distance : Distance)
  | upsertBatch (collection : String) (points : List PointStruct)

/-- Whether an op is a destructive collection delete. -/
def StoreOp.isDelete : StoreOp → Bool
  | .deleteCollection _ => true
  | _ => false

/-- Whether an op is a collection creation. -/
def StoreOp.isCreate : StoreOp → Bool
  | .createCollection _ _ _ => true
  | _ => false

/-- Whether an op is an upsert batch. -/
def StoreOp.isUpsert : StoreOp → Bool
  | .upsertBatch _ _ => true
  | _ => false

/-- Number of points carried by an upsert batch op (0 for other ops). -/
def StoreOp.batchSize : StoreOp → Nat
  | .upsertBatch _ ps => ps.length
  | _ => 0

/-- The configuration `main` accumulates while scanning `args`
(lines 17-19): chunk size, debug flag, collection name. -/
structure Config where
  chunk_size : Nat
  debug : Bool
  collection_name : String
deriving DecidableEq, Repr

/-- Rust's `str::parse::<usize>()` as used on line 44: an optional leading
`+`, then one or more ASCII digits, rejecting values that overflow 64-bit
`usize`. -/
def rustParseUsize (s : String) : Option Nat :=
  let cs := match s.toList with
    | '+' :: rest => rest
    | l => l
  if cs = [] then none
  else if cs.all Char.isDigit then
    let v := cs.foldl (fun acc c => acc * 10 + (c.toNat - 48)) 0
    if v < 2 ^ 64 then some v else none
  else none

/-- Rust's `input.trim().to_lowercase()` applied to the operator's answers
(lines 90 and 125): drop surrounding whitespace (`read_line` keeps the
trailing newline) and lowercase.  Character-list based so it computes by
kernel reduction. -/
def trimLowerAnswer (s : String) : String :=
  let cs := (s.toList.dropWhile Char.isWhitespace).reverse
  let cs := (cs.dropWhile Char.isWhitespace).reverse
  String.mk (cs.map Char.toLower)

/-- The argument-scanning `while` loop of lines 21-38, carried out over the
suffix of `args` still to be scanned (advancing the index `i` by one or two
is dropping one or two list elements).  `--debug` sets the flag;
`--collection` consumes the following argument as the collection name and
returns `none` — the early `return Ok(())` of line 31 — when that name is
empty; everything else is ignored. -/
def parseLoop (debug : Bool) (name : String) : List String → Option (Bool × String)
  | [] => some (debug, name)
  | a :: rest =>
    if a = "--debug" then parseLoop true name rest
    else if a = "--collection" then
      match rest with
      | [] => some (debug, name)
      | nm :: rest2 => if nm = "" then none else parseLoop debug nm rest2
    else parseLoop debug name rest

/-- Outcome of argument handling: the empty-collection-name early exit
(lines 29-32), the usage early exit (lines 40-42), or a configuration. -/
inductive ParseOutcome where
  | emptyName
  | usage
  | ok (cfg : Config)
deriving DecidableEq, Repr

/-- Lines 16-45 of `main`: scan the argument list (program name included,
starting from defaults `chunk_size = 200`, `debug = false`,
`collection_name = "test"`), then check the argument count, then — when a
third argument is present and is not one of the two flags — take it as the
chunk size, substituting 500 when it does not parse
(`parse::<usize>().unwrap_or(500)`). -/
def parseArgs (args : List String) : ParseOutcome :=
  match parseLoop false "test" args with
  | none => .emptyName
  | some (debug, name) =>
    if args.length < 2 ∨ args.length > 6 then .usage
    else
      let a2 := args.getD 2 ""
      let chunk_size :=
        if 3 ≤ args.length ∧ a2 ≠ "--debug" ∧ a2 ≠ "--collection" then
          (rustParseUsize a2).getD 500
        else 200
      .ok ⟨chunk_size, debug, name⟩

/-- Line 170: `path.split('/').last().unwrap_or("unknown")` — the final
path segment (`String.splitOn "/"` never returns `[]`, so the fallback is
dead, exactly as in Rust where `split` always yields at least one piece). -/
def fileNameOf (path : String) : String :=
  ((path.splitOn "/").getLast?).getD "unknown"

/-- Lines 171-179, the point-building map, one step per embedding:
`embeddings.iter().enumerate().map(|(i, embedding)| ... chunks[i] ...)`.
`chunks[i]` panics when `i` is out of bounds; the panic is modelled as
`none`.  `i` is the running index, `new_v4 i` the i-th fresh UUID. -/
def buildPointsAux (new_v4 : Nat → String) (file_name : String)
    (chunks : List String) (i : Nat) : List (List Float) → Option (List PointStruct)
  | [] => some []
  | e :: es =>
    match chunks.get? i with
    | none => none
    | some t =>
      match buildPointsAux new_v4 file_name chunks (i + 1) es with
      | none => none
      | some ps => some (⟨new_v4 i, e, ⟨file_name, t, i⟩⟩ :: ps)

/-- The point-building stage of `main` (lines 171-179). -/
def buildPoints (new_v4 : Nat → String) (file_name : String)
    (chunks : List String) (embeddings : List (List Float)) : Option (List PointStruct) :=
  buildPointsAux new_v4 file_name chunks 0 embeddings

/-- The store contents: collection name paired with its points. -/
abbrev Store := List (String × List PointStruct)

/-- The existence check of line 115:
`collections_list.collections.iter().any(|c| c.name == collection_name)`. -/
def existsIn (store : Store) (name : String) : Bool :=
  store.any (fun e => e.1 == name)

/-- The `delete_collection` call of line 130 removes the named collection. -/
def deleteFromStore (store : Store) (name : String) : Store :=
  store.filter (fun e => !(e.1 == name))

/-- An acknowledged upsert batch appends its points to the named collection
(ids are fresh UUIDs, so no overwrite-by-id occurs). -/
def updateStore (store : Store) (name : String) (pts : List PointStruct) : Store :=
  store.map (fun e => if e.1 == name then (e.1, e.2 ++ pts) else e)

/-- Errors with which the modelled run can abort (each is an `anyhow` error
propagated by `?`, or the explicit `anyhow!` of line 101).
`stdinExhausted` is a modelling artifact standing for a run that would
block reading another stdin line the supplied script does not contain. -/
inductive RunError where
  | extractionError (msg : String)
  | cannotProceedWithoutQdrant
  | modelInitError (msg : String)
  | embeddingError (msg : String)
  | chunkIndexPanic
  | upsertError
  | stdinExhausted
deriving DecidableEq, Repr

/-- How a run can end without an error: the two early `return Ok(())` exits
(empty collection name, usage) and the completed pipeline with its final
point count. -/
inductive Outcome where
  | emptyNameExit
  | usageExit
  | completed (pointCount : Nat)
deriving DecidableEq, Repr

/-- The Qdrant-bootstrap `while` loop of lines 84-103: while the store is
unreachable, prompt; an answer whose trimmed lowercase form is `"n"` aborts
with `anyhow!("Cannot proceed without Qdrant instance")`, any other answer
spawns the docker container and retries.  `reachable k` is whether the
k-th connection attempt succeeds.  Returns (error?, remaining stdin,
printed lines). -/
def connectLoop (reachable : Nat → Bool) (stdin : List String) (attempt : Nat) :
    Option RunError × List String × List String :=
  if reachable attempt then (none, stdin, [])
  else
    match stdin with
    | [] => (some .stdinExhausted, [],
        ["Qdrant instance with Grpc not detected. Do you want to start a Qdrant instance? (Y/n)"])
    | line :: rest =>
      if trimLowerAnswer line = "n" then
        (some .cannotProceedWithoutQdrant, rest,
          ["Qdrant instance with Grpc not detected. Do you want to start a Qdrant instance? (Y/n)"])
      else
        match connectLoop reachable rest (attempt + 1) with
        | (e, s, pr) =>
          (e, s,
            "Qdrant instance with Grpc not detected. Do you want to start a Qdrant instance? (Y/n)"
              :: "Starting Qdrant instance..."
              :: "Qdrant instance started! You can access the Qdrant dashboard at http://localhost:6333/dashboard/"
              :: pr)

/-- Result of the collection-ensuring phase. -/
structure EnsureOut where
  err : Option RunError
  store : Store
  ops : List StoreOp
  printed : List String
  stdin : List String

/-- Lines 114-150: if the collection exists, prompt whether to clear it; an
answer trimming/lowercasing to `"n"` keeps it (`should_create = false`),
ANY other answer (the empty default included) deletes it; then, unless it
was kept, create the collection with vector size 384 and cosine distance. -/
def ensureCollection (name : String) (store : Store) (stdin : List String) : EnsureOut :=
  if existsIn store name then
    let pr := ["Collection " ++ name ++ " already exists",
               "Do you want to clear the collection (y), or only add to it (n)? (Y/n)"]
    match stdin with
    | [] => ⟨some .stdinExhausted, store, [], pr, []⟩
    | line :: rest =>
      if trimLowerAnswer line = "n" then
        ⟨none, store, [], pr ++ ["Collection will not be cleared"], rest⟩
      else
        ⟨none, deleteFromStore store name ++ [(name, [])],
          [.deleteCollection name, .createCollection name 384 .cosine],
          pr ++ ["Clearing collection...", "Collection deleted"], rest⟩
  else
    ⟨none, store ++ [(name, [])], [.createCollection name 384 .cosine], [], stdin⟩

/-- The batch width `main` hands to `upsert_points_batch_blocking`
(line 182): the literal 6. -/
def batchWidth : Nat := 6

/-- Number of width-sized batches covering `n` points. -/
def numBatches (width n : Nat) : Nat := (n + width - 1) / width

/-- The i-th width-sized batch of `pts`. -/
def batchAt (width : Nat) (pts : List PointStruct) (i : Nat) : List PointStruct :=
  (pts.drop (width * i)).take width

/-- Modelled from the spec (§4.5 Upserter) and the `qdrant_client` crate's
`upsert_points_batch_blocking`, whose implementation is not under `src/`:
the point list is partitioned into consecutive batches of at most `width`
points. -/
def toBatches (width : Nat) (pts : List PointStruct) : List (List PointStruct) :=
  (List.range (numBatches width pts.length)).map (batchAt width pts)

/-- Modelled from the spec (§4.5 Upserter): batches are issued one at a
time, each blocking until acknowledged; the first failing batch stops the
call.  `ack i` is whether the store acknowledges the i-th issued batch.
Returns (success, ops issued, points acknowledged). -/
def runBatches (ack : Nat → Bool) (name : String) :
    List (List PointStruct) → Nat → Bool × List StoreOp × List PointStruct
  | [], _ => (true, [], [])
  | b :: bs, idx =>
    if ack idx then
      match runBatches ack name bs (idx + 1) with
      | (ok, ops, acked) => (ok, .upsertBatch name b :: ops, b ++ acked)
    else (false, [.upsertBatch name b], [])

/-- Every external behaviour `main` consumes, as explicit data. -/
structure Collaborators where
  /-- `pdf_extract::extract_text` (line 53). -/
  extract_text : String → Except String String
  /-- `splitter.chunks(text, chunk_size).collect()` (line 73): the
  third-party `text_splitter` iterator, an infallible function of the text
  and the chunk-size budget. -/
  chunksOf : String → Nat → List String
  /-- Whether the k-th Qdrant connection attempt succeeds (lines 84-86). -/
  reachable : Nat → Bool
  /-- The operator's stdin lines, consumed in order. -/
  stdin : List String
  /-- `TextEmbedding::try_new` (lines 153-157). -/
  tryNewModel : Except String Unit
  /-- `model.embed(chunks, None)` (line 161). -/
  embed : List String → Except String (List (List Float))
  /-- `Uuid::new_v4()` per point: the i-th generated id (line 178). -/
  new_v4 : Nat → String
  /-- Whether the store acknowledges the i-th upsert batch. -/
  batchAck : Nat → Bool
  /-- The store's collections (and their points) when the run starts. -/
  store0 : Store

/-- Everything observable about a run: its result, the lines printed, the
store calls issued, and the final store contents. -/
structure RunResult where
  result : Except RunError Outcome
  printed : List String
  ops : List StoreOp
  store : Store

/-- Lines 48-187 of `main`: the pipeline that runs once argument handling
produced a configuration.  The debug `println!("{:?}", ...)` value dumps
are modelled by their header line only; they are pure observability. -/
def runPipeline (c : Collaborators) (args : List String) (cfg : Config) : RunResult :=
  let pr0 := if cfg.debug then ["Debug mode is on"] else []
  let path := args.getD 1 ""
  match c.extract_text path with
  | .error e => ⟨.error (.extractionError e), pr0, [], c.store0⟩
  | .ok text =>
    let pr1 := pr0 ++ ["Extracted text from PDF file: " ++ path]
      ++ (if cfg.debug then ["Extracted text:", text] else [])
    let chunks := c.chunksOf text cfg.chunk_size
    let pr2 := pr1 ++ ["Chunk size: " ++ toString cfg.chunk_size,
                       "Created " ++ toString chunks.length ++ " Chunks!"]
      ++ (if cfg.debug then ["Chunks:"] else [])
    match connectLoop c.reachable c.stdin 0 with
    | (some e, _, prC) => ⟨.error e, pr2 ++ prC, [], c.store0⟩
    | (none, stdin1, prC) =>
      let pr3 := pr2 ++ prC ++ ["Connected to Qdrant database",
                                "Collection name: " ++ cfg.collection_name]
      let ens := ensureCollection cfg.collection_name c.store0 stdin1
      match ens.err with
      | some e => ⟨.error e, pr3 ++ ens.printed, .listCollections :: ens.ops, ens.store⟩
      | none =>
        let pr4 := pr3 ++ ens.printed
        match c.tryNewModel with
        | .error e => ⟨.error (.modelInitError e), pr4, .listCollections :: ens.ops, ens.store⟩
        | .ok _ =>
          let pr5 := pr4 ++ ["Embedding chunks..."]
          match c.embed chunks with
          | .error e => ⟨.error (.embeddingError e), pr5, .listCollections :: ens.ops, ens.store⟩
          | .ok embeddings =>
            let pr6 := pr5 ++ ["Embedded " ++ toString embeddings.length ++ " chunks"]
              ++ (if cfg.debug then ["Embeddings:"] else [])
            match buildPoints c.new_v4 (fileNameOf path) chunks embeddings with
            | none => ⟨.error .chunkIndexPanic, pr6, .listCollections :: ens.ops, ens.store⟩
            | some points =>
              let pr7 := pr6 ++ ["Uploading embeddings to Qdrant..."]
              match runBatches c.batchAck cfg.collection_name (toBatches batchWidth points) 0 with
              | (ok, ops2, acked) =>
                let store2 := updateStore ens.store cfg.collection_name acked
                if ok then
                  ⟨.ok (.completed points.length),
                    pr7 ++ ["Uploaded " ++ toString points.length ++ " embeddings to Qdrant",
                            "Data uploaded successfully! See it at http://localhost:6333/dashboard/"],
                    .listCollections :: ens.ops ++ ops2, store2⟩
                else
                  ⟨.error .upsertError, pr7, .listCollections :: ens.ops ++ ops2, store2⟩

/-- The whole of `main` (lines 14-188) as a pure function of the argument
list (program name included) and the collaborator behaviours. -/
def runMain (c : Collaborators) (args : List String) : RunResult :=
  match parseArgs args with
  | .emptyName => ⟨.ok .emptyNameExit, ["Error: Collection name cannot be empty"], [], c.store0⟩
  | .usage => ⟨.ok .usageExit,
      ["Usage: " ++ args.getD 0 ""
        ++ " <path_to_pdf> [chunk_size] [--debug] [--collection <collection_name>]"],
      [], c.store0⟩
  | .ok cfg => runPipeline c args cfg

/-- The chunker's error per the spec's taxonomy (§7). -/
inductive ChunkError where
  | chunkConfigError
deriving DecidableEq, Repr

/-- Modelled from the spec (§4.1 Chunker): the chunking algorithm itself
lives in the third-party `text_splitter` crate — only its call site
(`src/src/main.rs` line 73) is under `src/`.  Per the spec, splitting is
greedy left-to-right over the tokenizer's indivisible units (`tokenCount`
is the tokenizer used purely as a length oracle, a chunk's token count
being the sum over its units): the current segment is extended while it
stays within `budget`, a unit that does not fit starts a new segment, and
a single unit whose token count already exceeds `budget` is
`ChunkConfigError`.  `cur` is the current segment (reversed) and `curTok`
its token count. -/
def chunkSpecGo (tokenCount : String → Nat) (budget : Nat) (cur : List String) (curTok : Nat) :
    List String → Except ChunkError (List (List String))
  | [] => .ok (if cur.isEmpty then [] else [cur.reverse])
  | u :: us =>
    if budget < tokenCount u then .error .chunkConfigError
    else if curTok + tokenCount u ≤ budget then
      chunkSpecGo tokenCount budget (u :: cur) (curTok + tokenCount u) us
    else
      match chunkSpecGo tokenCount budget [u] (tokenCount u) us with
      | .error e => .error e
      | .ok segs => .ok (cur.reverse :: segs)

/-- Modelled from the spec (§4.1): `chunk(text, budget)` on a text already
segmented into the tokenizer's indivisible units. -/
def chunkSpec (tokenCount : String → Nat) (units : List String) (budget : Nat) :
    Except ChunkError (List (List String)) :=
  chunkSpecGo tokenCount budget [] 0 units

/-- A collaborator bundle for concrete runs: extraction succeeds, the
chunker returns the whole text as one chunk, the store is reachable at
once, the model loads, each chunk embeds to an empty vector, and every
batch is acknowledged against an initially empty store. -/
def collabBase : Collaborators where
  extract_text := fun _ => .ok "hello world"
  chunksOf := fun t _ => [t]
  reachable := fun _ => true
  stdin := []
  tryNewModel := .ok ()
  embed := fun ts => .ok (ts.map (fun _ => []))
  new_v4 := fun i => "id-" ++ toString i
  batchAck := fun _ => true
  store0 := []

/-! ### Helper lemmas -/

theorem get?_some_of_lt {α : Type _} :
    ∀ (l : List α) (i : Nat) (d : α), i < l.length → l.get? i = some (l.getD i d)
  | _ :: _, 0, _, _ => rfl
  | _ :: l, i + 1, d, h => get?_some_of_lt l i d (Nat.lt_of_succ_lt_succ h)

theorem get?_none_of_le {α : Type _} :
    ∀ (l : List α) (i : Nat), l.length ≤ i → l.get? i = none
  | [], _, _ => rfl
  | _ :: l, i + 1, h => get?_none_of_le l i (Nat.le_of_succ_le_succ h)

/-- When there are at least as many chunks as embeddings, every enumerate
step succeeds and the point at offset `j` pairs embedding `j` with chunk
`i + j` under index `i + j`. -/
theorem buildPointsAux_complete (new_v4 : Nat → String) (fn : String) (chunks : List String) :
    ∀ (es : List (List Float)) (i : Nat), i + es.length ≤ chunks.length →
    ∃ ps, buildPointsAux new_v4 fn chunks i es = some ps ∧ ps.length = es.length ∧
      ∀ j, j < es.length →
        ps.get? j = some ⟨new_v4 (i + j), es.getD j [],
          ⟨fn, chunks.getD (i + j) "", i + j⟩⟩ := by
  intro es
  induction es with
  | nil =>
    intro i _
    exact ⟨[], rfl, rfl, fun j hj => absurd hj (Nat.not_lt_zero j)⟩
  | cons e es ih =>
    intro i h
    have hi : i < chunks.length := by simp at h; omega
    obtain ⟨ps, h1, h2, h3⟩ := ih (i + 1) (by simp at h ⊢; omega)
    refine ⟨⟨new_v4 i, e, ⟨fn, chunks.getD i "", i⟩⟩ :: ps, ?_, by simpa using h2, ?_⟩
    · have hget : chunks.get? i = some (chunks.getD i "") := get?_some_of_lt chunks i "" hi
      simp only [buildPointsAux, hget, h1]
    · intro j hj
      cases j with
      | zero => simp
      | succ k =>
        have hk : k < es.length := by simpa using hj
        have heq : i + (k + 1) = (i + 1) + k := by omega
        simpa [heq] using h3 k hk

/-- When the embeddings outnumber the chunks, some `chunks[i]` access is
out of bounds and point-building aborts. -/
theorem buildPointsAux_overflow (new_v4 : Nat → String) (fn : String) (chunks : List String) :
    ∀ (es : List (List Float)) (i : Nat), es ≠ [] → chunks.length < i + es.length →
    buildPointsAux new_v4 fn chunks i es = none := by
  intro es
  induction es with
  | nil => intro i hne _; exact absurd rfl hne
  | cons e es ih =>
    intro i _ h
    by_cases hi : chunks.length ≤ i
    · have hget : chunks.get? i = none := get?_none_of_le chunks i hi
      simp only [buildPointsAux, hget]
    · have hilt : i < chunks.length := Nat.lt_of_not_le hi
      have hne : es ≠ [] := by
        intro hnil
        rw [hnil] at h
        simp at h
        omega
      have hrec := ih (i + 1) hne (by simp at h ⊢; omega)
      have hget : chunks.get? i = some (chunks.getD i "") := get?_some_of_lt chunks i "" hilt
      simp only [buildPointsAux, hget, hrec]

/-! ### Claims -/

/-- Claim C1: for every run that reaches point-building (the chunk and
vector sequences having equal length, as the order-preserving embedding
engine guarantees), the point at position `i` carries exactly the payload
`{file_name: final path segment of the source path, text: chunk i's text,
chunk_number: i}`, for every index `i` of the chunk sequence — no stage
reorders the sequence. -/
theorem claim_C1_payload (new_v4 : Nat → String) (path : String)
    (chunks : List String) (vectors : List (List Float))
    (h : vectors.length = chunks.length) :
    ∃ points, buildPoints new_v4 (fileNameOf path) chunks vectors = some points ∧
      points.length = chunks.length ∧
      ∀ i, i < chunks.length →
        points.get? i = some ⟨new_v4 i, vectors.getD i [],
          ⟨fileNameOf path, chunks.getD i "", i⟩⟩ := by
  obtain ⟨ps, h1, h2, h3⟩ :=
    buildPointsAux_complete new_v4 (fileNameOf path) chunks vectors 0 (by omega)
  refine ⟨ps, h1, by omega, fun i hi => ?_⟩
  simpa using h3 i (by omega)

/-- Witness for C1 at a concrete input. -/
theorem claim_C1_payload_witness :
    ([[], []] : List (List Float)).length = (["alpha", "beta"] : List String).length ∧
    (∃ points,
      buildPoints (fun i => "id-" ++ toString i) (fileNameOf "docs/report.pdf")
          ["alpha", "beta"] [[], []] = some points ∧
      points.length = (["alpha", "beta"] : List String).length ∧
      ∀ i, i < (["alpha", "beta"] : List String).length →
        points.get? i = some ⟨"id-" ++ toString i, ([[], []] : List (List Float)).getD i [],
          ⟨fileNameOf "docs/report.pdf", (["alpha", "beta"] : List String).getD i "", i⟩⟩) :=
  ⟨rfl, claim_C1_payload (fun i => "id-" ++ toString i) "docs/report.pdf"
    ["alpha", "beta"] [[], []] rfl⟩

/-- A run in which the embedding engine returns 4 vectors for 5 chunks. -/
def collabFewerVectors : Collaborators :=
  { collabBase with
      chunksOf := fun _ _ => ["c1", "c2", "c3", "c4", "c5"]
      embed := fun _ => .ok [[], [], [], []] }

/-- Claim C2 counterexample: with 5 chunks and 4 embedding vectors,
point-building does NOT fail — the run completes with 4 points and the
upsert IS attempted (one batch issued), contradicting the claimed
`InvariantViolation` before any upsert. -/
theorem claim_C2_counterexample :
    (runMain collabFewerVectors ["prog", "doc.pdf"]).result = .ok (.completed 4) ∧
    ((runMain collabFewerVectors ["prog", "doc.pdf"]).ops.filter StoreOp.isUpsert).length = 1 :=
  ⟨rfl, rfl⟩

/-- Claim C2 as amended: the code never checks the chunk/vector counts.
When the vectors number at most the chunks, point-building silently
succeeds, pairing vector `i` with chunk `i` (one point per vector), and
the upsert proceeds; only when the vectors outnumber the chunks does the
run abort, with an index-out-of-bounds panic on `chunks[i]`, not with any
`InvariantViolation`. -/
theorem claim_C2_amended (new_v4 : Nat → String) (fn : String)
    (chunks : List String) (vectors : List (List Float)) :
    (vectors.length ≤ chunks.length →
      ∃ ps, buildPoints new_v4 fn chunks vectors = some ps ∧ ps.length = vectors.length) ∧
    (chunks.length < vectors.length → buildPoints new_v4 fn chunks vectors = none) := by
  constructor
  · intro h
    obtain ⟨ps, h1, h2, _⟩ := buildPointsAux_complete new_v4 fn chunks vectors 0 (by omega)
    exact ⟨ps, h1, h2⟩
  · intro h
    have hne : vectors ≠ [] := by
      intro hnil; rw [hnil] at h; simp at h
    exact buildPointsAux_overflow new_v4 fn chunks vectors 0 hne (by omega)

/-- Witness for the amended C2 at concrete inputs. -/
theorem claim_C2_amended_witness :
    (([[]] : List (List Float)).length ≤ (["a", "b"] : List String).length ∧
      ∃ ps, buildPoints (fun i => "u" ++ toString i) "f.pdf" ["a", "b"] [[]] = some ps ∧
        ps.length = ([[]] : List (List Float)).length) ∧
    ((["a"] : List String).length < ([[], []] : List (List Float)).length ∧
      buildPoints (fun i => "u" ++ toString i) "f.pdf" ["a"] [[], []] = none) :=
  ⟨⟨by decide, (claim_C2_amended (fun i => "u" ++ toString i) "f.pdf" ["a", "b"] [[]]).1
      (by decide)⟩,
   ⟨by decide, (claim_C2_amended (fun i => "u" ++ toString i) "f.pdf" ["a"] [[], []]).2
      (by decide)⟩⟩

/-- Claim C3 counterexample: an explicitly supplied non-numeric chunk size
falls back to 500 (line 44, `unwrap_or(500)`), while a run with no chunk
size supplied uses 200 (line 17) — two different defaults, and the
budget actually used (printed as `Chunk size: ...` and handed to the
splitter) is 500, not 200; the run does not fail. -/
theorem claim_C3_counterexample :
    parseArgs ["prog", "doc.pdf", "abc"] = .ok ⟨500, false, "test"⟩ ∧
    parseArgs ["prog", "doc.pdf"] = .ok ⟨200, false, "test"⟩ ∧
    (500 : Nat) ≠ 200 ∧
    (runMain collabBase ["prog", "doc.pdf", "abc"]).printed.getD 1 "" = "Chunk size: 500" ∧
    (runMain collabBase ["prog", "doc.pdf", "abc"]).result = .ok (.completed 1) ∧
    (runMain collabBase ["prog", "doc.pdf"]).printed.getD 1 "" = "Chunk size: 200" :=
  ⟨by rfl, by rfl, by decide, by rfl, by rfl, by rfl⟩

/-- Claim C3 as amended: a supplied chunk-size argument that does not parse
as a `usize` does not fail the run, but the budget it falls back to is the
fixed constant 500 — distinct from the 200 used when no chunk size is
supplied at all. -/
theorem claim_C3_amended (p s : String)
    (hp1 : p ≠ "--debug") (hp2 : p ≠ "--collection")
    (hs1 : s ≠ "--debug") (hs2 : s ≠ "--collection")
    (hs : rustParseUsize s = none) :
    parseArgs ["prog", p, s] = .ok ⟨500, false, "test"⟩ ∧
    parseArgs ["prog", p] = .ok ⟨200, false, "test"⟩ := by
  constructor
  · simp [parseArgs, parseLoop, hp1, hp2, hs1, hs2, hs]
  · simp [parseArgs, parseLoop, hp1, hp2]

/-- Witness for the amended C3 at a concrete input. -/
theorem claim_C3_amended_witness :
    (("doc.pdf" : String) ≠ "--debug" ∧ ("doc.pdf" : String) ≠ "--collection" ∧
     ("abc" : String) ≠ "--debug" ∧ ("abc" : String) ≠ "--collection" ∧
     rustParseUsize "abc" = none) ∧
    (parseArgs ["prog", "doc.pdf", "abc"] = .ok ⟨500, false, "test"⟩ ∧
     parseArgs ["prog", "doc.pdf"] = .ok ⟨200, false, "test"⟩) :=
  ⟨⟨by decide, by decide, by decide, by decide, by rfl⟩,
   claim_C3_amended "doc.pdf" "abc" (by decide) (by decide) (by decide) (by decide) (by rfl)⟩

/-- Claim C4 counterexample: supplying an empty collection name makes the
run print an error line but terminate with `Ok(())` — a SUCCESSFUL exit
status (line 31), not an error. -/
theorem claim_C4_counterexample :
    (runMain collabBase ["prog", "doc.pdf", "--collection", ""]).result = .ok .emptyNameExit ∧
    (runMain collabBase ["prog", "doc.pdf", "--collection", ""]).printed
      = ["Error: Collection name cannot be empty"] ∧
    (runMain collabBase ["prog", "doc.pdf", "--collection", ""]).ops = [] :=
  ⟨rfl, rfl, rfl⟩

/-- Claim C4 as amended: an empty collection name terminates the run
immediately — before any extraction or store call — with an error message
printed, but with a successful (`Ok`) exit status rather than an
attributable error kind. -/
theorem claim_C4_amended (c : Collaborators) (p : String) (hp : p ≠ "--collection") :
    (runMain c ["prog", p, "--collection", ""]).result = .ok .emptyNameExit ∧
    (runMain c ["prog", p, "--collection", ""]).printed
      = ["Error: Collection name cannot be empty"] ∧
    (runMain c ["prog", p, "--collection", ""]).ops = [] ∧
    (runMain c ["prog", p, "--collection", ""]).store = c.store0 := by
  have h : parseArgs ["prog", p, "--collection", ""] = .emptyName := by
    by_cases hd : p = "--debug" <;> simp [parseArgs, parseLoop, hp, hd]
  simp [runMain, h]

/-- Witness for the amended C4 at a concrete input. -/
theorem claim_C4_amended_witness :
    ("doc.pdf" : String) ≠ "--collection" ∧
    ((runMain collabBase ["prog", "doc.pdf", "--collection", ""]).result
        = .ok .emptyNameExit ∧
     (runMain collabBase ["prog", "doc.pdf", "--collection", ""]).printed
        = ["Error: Collection name cannot be empty"] ∧
     (runMain collabBase ["prog", "doc.pdf", "--collection", ""]).ops = [] ∧
     (runMain collabBase ["prog", "doc.pdf", "--collection", ""]).store
        = collabBase.store0) :=
  ⟨by decide, claim_C4_amended collabBase "doc.pdf" (by decide)⟩

/-- A pre-existing point sitting in the store before a run. -/
def oldPoint : PointStruct := ⟨"old-id", [], ⟨"old.pdf", "old text", 0⟩⟩

/-- A run against a store that already holds collection `"test"`, where the
operator answers the clear-vs-keep prompt with an empty line (just Enter). -/
def collabExistingEmptyAnswer : Collaborators :=
  { collabBase with
      store0 := [("test", [oldPoint])]
      stdin := [""] }

/-- Claim C5 counterexample: with collection `"test"` already present, an
EMPTY operator answer at the clear prompt DOES cause the destructive
delete — line 125 only spares the collection when the trimmed lowercased
answer is exactly `"n"`, so the empty default clears it. -/
theorem claim_C5_counterexample :
    ((runMain collabExistingEmptyAnswer ["prog", "doc.pdf"]).ops.filter StoreOp.isDelete)
      = [StoreOp.deleteCollection "test"] ∧
    (runMain collabExistingEmptyAnswer ["prog", "doc.pdf"]).result = .ok (.completed 1) :=
  ⟨by rfl, by rfl⟩

/-- Claim C5 as amended: when the collection exists, deletion is the
DEFAULT: the delete is issued for every operator answer except an explicit
`"n"` (after trimming and lowercasing); in particular the empty/default
answer deletes the collection.  Only the explicit `"n"` keeps it. -/
theorem claim_C5_amended (name : String) (store : Store) (l : String) (rest : List String)
    (hex : existsIn store name = true) :
    (trimLowerAnswer l ≠ "n" →
      ((ensureCollection name store (l :: rest)).ops.filter StoreOp.isDelete)
        = [StoreOp.deleteCollection name]) ∧
    (trimLowerAnswer l = "n" → (ensureCollection name store (l :: rest)).ops = []) := by
  constructor
  · intro hl
    simp [ensureCollection, hex, hl, StoreOp.isDelete]
  · intro hl
    simp [ensureCollection, hex, hl]

/-- Witness for the amended C5 at a concrete input (empty answer). -/
theorem claim_C5_amended_witness :
    existsIn [("test", [oldPoint])] "test" = true ∧
    trimLowerAnswer "" ≠ "n" ∧
    ((ensureCollection "test" [("test", [oldPoint])] [""]).ops.filter StoreOp.isDelete)
      = [StoreOp.deleteCollection "test"] :=
  ⟨by rfl, by decide,
   (claim_C5_amended "test" [("test", [oldPoint])] "" [] (by rfl)).1 (by decide)⟩

/-! ### Batching lemmas (`toBatches` / `runBatches`) -/

theorem batchAt_succ (pts : List PointStruct) (i : Nat) :
    batchAt 6 pts (i + 1) = batchAt 6 (pts.drop 6) i := by
  simp only [batchAt, List.drop_drop]
  have h6 : 6 * (i + 1) = 6 + 6 * i := by omega
  rw [h6]

theorem toBatches_six_cons (pts : List PointStruct) (h : pts ≠ []) :
    toBatches 6 pts = pts.take 6 :: toBatches 6 (pts.drop 6) := by
  have hpos : 0 < pts.length := List.length_pos.mpr h
  have hnum : numBatches 6 pts.length = numBatches 6 (pts.drop 6).length + 1 := by
    simp only [numBatches, List.length_drop]
    omega
  simp only [toBatches, hnum, List.range_succ_eq_map, List.map_cons, List.map_map]
  congr 1
  exact List.map_congr_left (fun a _ => batchAt_succ pts a)

/-- With every batch acknowledged, the blocking batch upsert issues one op
per batch and acknowledges every point, in order. -/
theorem runBatches_all_acked (ack : Nat → Bool) (name : String)
    (hack : ∀ i, ack i = true) :
    ∀ n pts idx, pts.length ≤ n →
      runBatches ack name (toBatches 6 pts) idx
        = (true, (toBatches 6 pts).map (StoreOp.upsertBatch name), pts) := by
  intro n
  induction n with
  | zero =>
    intro pts idx h
    have : pts = [] := List.length_eq_zero.mp (Nat.le_zero.mp h)
    subst this
    rfl
  | succ n ih =>
    intro pts idx h
    by_cases hne : pts = []
    · subst hne; rfl
    · have hpos : 0 < pts.length := List.length_pos.mpr hne
      have hdrop : (pts.drop 6).length ≤ n := by
        simp only [List.length_drop]
        omega
      have hrec := ih (pts.drop 6) (idx + 1) hdrop
      rw [toBatches_six_cons pts hne]
      simp only [runBatches, hack idx, if_true, hrec, List.map_cons]
      rw [List.take_append_drop]

/-- The lines a completed (or upsert-failed) pipeline prints, in order:
used to characterize `runPipeline`'s stdout on the path where extraction,
connection (first attempt), model init, embedding and point-building all
succeed. -/
def pipelinePrints (cfg : Config) (args : List String) (text : String) (chunks : List String)
    (ens : EnsureOut) (vectors : List (List Float)) (pts : List PointStruct) (ok : Bool) :
    List String :=
  (if cfg.debug then ["Debug mode is on"] else [])
    ++ ["Extracted text from PDF file: " ++ args.getD 1 ""]
    ++ (if cfg.debug then ["Extracted text:", text] else [])
    ++ ["Chunk size: " ++ toString cfg.chunk_size,
        "Created " ++ toString chunks.length ++ " Chunks!"]
    ++ (if cfg.debug then ["Chunks:"] else [])
    ++ ["Connected to Qdrant database", "Collection name: " ++ cfg.collection_name]
    ++ ens.printed
    ++ ["Embedding chunks..."]
    ++ ["Embedded " ++ toString vectors.length ++ " chunks"]
    ++ (if cfg.debug then ["Embeddings:"] else [])
    ++ ["Uploading embeddings to Qdrant..."]
    ++ (if ok then
          ["Uploaded " ++ toString pts.length ++ " embeddings to Qdrant",
           "Data uploaded successfully! See it at http://localhost:6333/dashboard/"]
        else [])

/-- The skeleton of a run that reaches the upsert stage: with parsing done,
extraction succeeding, the store reachable at the first attempt, the
ensure phase not failing, the model loading, embedding succeeding and
point-building succeeding, the run's outcome, store ops, final store and
stdout are determined by the ensure result and the batch acknowledgments. -/
theorem runMain_pipeline (c : Collaborators) (args : List String) (cfg : Config)
    (text : String) (vectors : List (List Float)) (pts : List PointStruct)
    (ens : EnsureOut) (ok : Bool) (ops2 : List StoreOp) (acked : List PointStruct)
    (hparse : parseArgs args = .ok cfg)
    (hex : c.extract_text (args.getD 1 "") = .ok text)
    (hr : c.reachable 0 = true)
    (hens : ensureCollection cfg.collection_name c.store0 c.stdin = ens)
    (hense : ens.err = none)
    (hm : c.tryNewModel = .ok ())
    (hemb : c.embed (c.chunksOf text cfg.chunk_size) = .ok vectors)
    (hb : buildPoints c.new_v4 (fileNameOf (args.getD 1 ""))
            (c.chunksOf text cfg.chunk_size) vectors = some pts)
    (hup : runBatches c.batchAck cfg.collection_name (toBatches 6 pts) 0 = (ok, ops2, acked)) :
    (runMain c args).result
        = (if ok then .ok (.completed pts.length) else .error .upsertError) ∧
    (runMain c args).ops = .listCollections :: ens.ops ++ ops2 ∧
    (runMain c args).store = updateStore ens.store cfg.collection_name acked ∧
    (runMain c args).printed
        = pipelinePrints cfg args text (c.chunksOf text cfg.chunk_size) ens vectors pts ok := by
  have hcl : connectLoop c.reachable c.stdin 0 = (none, c.stdin, []) := by
    cases hs : c.stdin <;> simp [connectLoop, hr]
  have hb2 : buildPointsAux c.new_v4 (fileNameOf (args.getD 1 ""))
      (c.chunksOf text cfg.chunk_size) 0 vectors = some pts := hb
  cases ok with
  | true =>
    simp only [runMain, hparse, runPipeline, hex, hcl, hens, hense, hm, hemb,
      buildPoints, hb2, batchWidth, hup]
    simp [pipelinePrints]
  | false =>
    simp only [runMain, hparse, runPipeline, hex, hcl, hens, hense, hm, hemb,
      buildPoints, hb2, batchWidth, hup]
    simp [pipelinePrints]

theorem filter_isDelete_upserts (name : String) (bs : List (List PointStruct)) :
    ((bs.map (StoreOp.upsertBatch name)).filter StoreOp.isDelete) = [] := by
  induction bs with
  | nil => rfl
  | cons b bs ih => simp [StoreOp.isDelete, ih]

theorem filter_isCreate_upserts (name : String) (bs : List (List PointStruct)) :
    ((bs.map (StoreOp.upsertBatch name)).filter StoreOp.isCreate) = [] := by
  induction bs with
  | nil => rfl
  | cons b bs ih => simp [StoreOp.isCreate, ih]

/-- Claim C7: when the target collection already exists and the operator
chooses to keep it (answer `"n"`), no destructive store call is made: the
collection is neither deleted nor recreated, the pre-existing points stay
in place, and the run's new points are only appended to them. -/
theorem claim_C7_kept_frame (c : Collaborators) (p name text l : String)
    (oldPts : List PointStruct) (vectors : List (List Float))
    (hp1 : p ≠ "--debug") (hp2 : p ≠ "--collection") (hn : name ≠ "")
    (hex : c.extract_text p = .ok text)
    (hr : c.reachable 0 = true)
    (hstdin : c.stdin = [l])
    (hl : trimLowerAnswer l = "n")
    (hstore : c.store0 = [(name, oldPts)])
    (hm : c.tryNewModel = .ok ())
    (hemb : c.embed (c.chunksOf text 200) = .ok vectors)
    (hlen : vectors.length = (c.chunksOf text 200).length)
    (hack : ∀ i, c.batchAck i = true) :
    ∃ pts, buildPoints c.new_v4 (fileNameOf p) (c.chunksOf text 200) vectors = some pts ∧
      (runMain c ["prog", p, "--collection", name]).result = .ok (.completed pts.length) ∧
      ((runMain c ["prog", p, "--collection", name]).ops.filter StoreOp.isDelete) = [] ∧
      ((runMain c ["prog", p, "--collection", name]).ops.filter StoreOp.isCreate) = [] ∧
      (runMain c ["prog", p, "--collection", name]).store = [(name, oldPts ++ pts)] := by
  have hparse : parseArgs ["prog", p, "--collection", name] = .ok ⟨200, false, name⟩ := by
    simp [parseArgs, parseLoop, hp1, hp2, hn]
  obtain ⟨pts, hb, hblen, _⟩ :=
    buildPointsAux_complete c.new_v4 (fileNameOf p) (c.chunksOf text 200) vectors 0 (by omega)
  have hens : ensureCollection name c.store0 c.stdin =
      ⟨none, [(name, oldPts)],  [],
        ["Collection " ++ name ++ " already exists",
         "Do you want to clear the collection (y), or only add to it (n)? (Y/n)",
         "Collection will not be cleared"], []⟩ := by
    rw [hstore, hstdin]
    simp [ensureCollection, existsIn, hl]
  have hup := runBatches_all_acked c.batchAck name hack pts.length pts 0 (Nat.le_refl _)
  obtain ⟨hres, hops, hst, _⟩ :=
    runMain_pipeline c ["prog", p, "--collection", name] ⟨200, false, name⟩ text vectors pts
      _ true _ pts hparse hex hr hens rfl hm hemb hb hup
  refine ⟨pts, hb, ?_, ?_, ?_, ?_⟩
  · simpa using hres
  · rw [hops]
    simp [StoreOp.isDelete, filter_isDelete_upserts]
  · rw [hops]
    simp [StoreOp.isCreate, filter_isCreate_upserts]
  · rw [hst]
    simp [updateStore]

/-- A run against a store already holding collection `"keep"` with one
pre-existing point, where the operator answers `"n"` (keep). -/
def collabKeep : Collaborators :=
  { collabBase with
      store0 := [("keep", [oldPoint])]
      stdin := ["n"] }

/-- Witness for C7 at a concrete input. -/
theorem claim_C7_kept_frame_witness :
    collabKeep.extract_text "d/doc.pdf" = .ok "hello world" ∧
    collabKeep.reachable 0 = true ∧
    collabKeep.stdin = ["n"] ∧
    trimLowerAnswer "n" = "n" ∧
    collabKeep.store0 = [("keep", [oldPoint])] ∧
    collabKeep.tryNewModel = .ok () ∧
    collabKeep.embed (collabKeep.chunksOf "hello world" 200) = .ok [[]] ∧
    ([[]] : List (List Float)).length = (collabKeep.chunksOf "hello world" 200).length ∧
    (∃ pts,
      buildPoints collabKeep.new_v4 (fileNameOf "d/doc.pdf")
          (collabKeep.chunksOf "hello world" 200) [[]] = some pts ∧
      (runMain collabKeep ["prog", "d/doc.pdf", "--collection", "keep"]).result
          = .ok (.completed pts.length) ∧
      ((runMain collabKeep ["prog", "d/doc.pdf", "--collection", "keep"]).ops.filter
          StoreOp.isDelete) = [] ∧
      ((runMain collabKeep ["prog", "d/doc.pdf", "--collection", "keep"]).ops.filter
          StoreOp.isCreate) = [] ∧
      (runMain collabKeep ["prog", "d/doc.pdf", "--collection", "keep"]).store
          = [("keep", [oldPoint] ++ pts)]) :=
  ⟨rfl, rfl, rfl, by decide, rfl, rfl, rfl, rfl,
   claim_C7_kept_frame collabKeep "d/doc.pdf" "keep" "hello world" "n" [oldPoint] [[]]
     (by decide) (by decide) (by decide) rfl rfl rfl (by decide) rfl rfl rfl rfl
     (fun _ => rfl)⟩

/-- Claim C6 counterexample: with an explicit chunk-size argument `"0"` —
a budget strictly below the token count of every indivisible unit, since
cl100k token counts of nonempty units are at least 1 — the run does NOT
fail with any `ChunkConfigError`: the chunk stage (line 73) is an
infallible iterator collection with no error path, the budget is never
validated, and the run proceeds to embedding and completes. -/
theorem claim_C6_counterexample :
    (runMain collabBase ["prog", "doc.pdf", "0"]).result = .ok (.completed 1) ∧
    (runMain collabBase ["prog", "doc.pdf", "0"]).printed.getD 1 "" = "Chunk size: 0" ∧
    "Embedding chunks..." ∈ (runMain collabBase ["prog", "doc.pdf", "0"]).printed :=
  ⟨by rfl, by rfl, by decide⟩

/-- Claim C6 as amended: the code contains no `ChunkConfigError` (or any
chunking error path) at all — `splitter.chunks(...).collect()` is
infallible, the budget is never checked against the tokenizer's units, and
for ANY chunker behaviour a run with budget 0 (below the token count of
every indivisible unit) proceeds to the embedding stage and succeeds
rather than failing before embedding. -/
theorem claim_C6_amended (c : Collaborators) (p text : String) (vectors : List (List Float))
    (hp1 : p ≠ "--debug") (hp2 : p ≠ "--collection")
    (hex : c.extract_text p = .ok text)
    (hr : c.reachable 0 = true)
    (hstore : c.store0 = [])
    (hm : c.tryNewModel = .ok ())
    (hemb : c.embed (c.chunksOf text 0) = .ok vectors)
    (hlen : vectors.length = (c.chunksOf text 0).length)
    (hack : ∀ i, c.batchAck i = true) :
    (runMain c ["prog", p, "0"]).result = .ok (.completed vectors.length) ∧
    "Embedding chunks..." ∈ (runMain c ["prog", p, "0"]).printed := by
  have h0 : rustParseUsize "0" = some 0 := by rfl
  have hparse : parseArgs ["prog", p, "0"] = .ok ⟨0, false, "test"⟩ := by
    simp [parseArgs, parseLoop, hp1, hp2, h0]
  obtain ⟨pts, hb, hblen, _⟩ :=
    buildPointsAux_complete c.new_v4 (fileNameOf p) (c.chunksOf text 0) vectors 0 (by omega)
  have hens : ensureCollection "test" c.store0 c.stdin =
      ⟨none, [("test", [])], [.createCollection "test" 384 .cosine], [], c.stdin⟩ := by
    rw [hstore]
    simp [ensureCollection, existsIn]
  have hup := runBatches_all_acked c.batchAck "test" hack pts.length pts 0 (Nat.le_refl _)
  obtain ⟨hres, _, _, hpr⟩ :=
    runMain_pipeline c ["prog", p, "0"] ⟨0, false, "test"⟩ text vectors pts
      _ true _ pts hparse hex hr hens rfl hm hemb hb hup
  constructor
  · rw [hres, hblen]
    rfl
  · rw [hpr]
    simp [pipelinePrints]

/-- Witness for the amended C6 at a concrete input. -/
theorem claim_C6_amended_witness :
    (("doc.pdf" : String) ≠ "--debug" ∧ ("doc.pdf" : String) ≠ "--collection" ∧
     collabBase.extract_text "doc.pdf" = .ok "hello world" ∧
     collabBase.reachable 0 = true ∧
     collabBase.store0 = [] ∧
     collabBase.tryNewModel = .ok () ∧
     collabBase.embed (collabBase.chunksOf "hello world" 0) = .ok [[]] ∧
     ([[]] : List (List Float)).length = (collabBase.chunksOf "hello world" 0).length) ∧
    ((runMain collabBase ["prog", "doc.pdf", "0"]).result
        = .ok (.completed ([[]] : List (List Float)).length) ∧
     "Embedding chunks..." ∈ (runMain collabBase ["prog", "doc.pdf", "0"]).printed) :=
  ⟨⟨by decide, by decide, rfl, rfl, rfl, rfl, rfl, rfl⟩,
   claim_C6_amended collabBase "doc.pdf" "hello world" [[]]
     (by decide) (by decide) rfl rfl rfl rfl rfl rfl (fun _ => rfl)⟩

theorem batchAt_zero (pts : List PointStruct) : batchAt 6 pts 0 = pts.take 6 := by
  simp [batchAt]

theorem range_map_upsert_succ (name : String) (pts : List PointStruct) (k : Nat) :
    (List.range (k + 1)).map (fun i => StoreOp.upsertBatch name (batchAt 6 pts i))
      = StoreOp.upsertBatch name (batchAt 6 pts 0)
        :: (List.range k).map (fun i => StoreOp.upsertBatch name (batchAt 6 (pts.drop 6) i)) := by
  rw [List.range_succ_eq_map]
  simp only [List.map_cons, List.map_map]
  congr 1
  exact List.map_congr_left
    (fun a _ => congrArg (StoreOp.upsertBatch name) (batchAt_succ pts a))

/-- When the first `f` batches are acknowledged and batch `f` fails, the
blocking batch upsert issues exactly the first `f + 1` batches and
acknowledges exactly the `6 * f` points of the `f` full batches. -/
theorem runBatches_fail (ack : Nat → Bool) (name : String) :
    ∀ (f : Nat) (pts : List PointStruct) (idx : Nat),
      (∀ i, i < f → ack (idx + i) = true) → ack (idx + f) = false →
      6 * f < pts.length →
      runBatches ack name (toBatches 6 pts) idx
        = (false,
           (List.range (f + 1)).map (fun i => StoreOp.upsertBatch name (batchAt 6 pts i)),
           pts.take (6 * f)) := by
  intro f
  induction f with
  | zero =>
    intro pts idx _ hf hlen
    have hne : pts ≠ [] := by
      intro h
      rw [h] at hlen
      simp at hlen
    rw [toBatches_six_cons pts hne]
    rw [Nat.add_zero] at hf
    simp [runBatches, hf, batchAt, List.range_succ]
  | succ f ih =>
    intro pts idx hlt hf hlen
    have hne : pts ≠ [] := by
      intro h
      rw [h] at hlen
      simp at hlen
    have h0 : ack idx = true := by
      have := hlt 0 (Nat.succ_pos f)
      simpa using this
    have hrec := ih (pts.drop 6) (idx + 1)
      (fun i hi => by
        have := hlt (i + 1) (by omega)
        have he : idx + 1 + i = idx + (i + 1) := by omega
        rw [he]
        exact this)
      (by
        have he : idx + 1 + f = idx + (f + 1) := by omega
        rw [he]
        exact hf)
      (by
        simp only [List.length_drop]
        omega)
    rw [toBatches_six_cons pts hne]
    simp only [runBatches, h0, if_true, hrec]
    rw [range_map_upsert_succ name pts (f + 1), batchAt_zero]
    have ht : 6 * (f + 1) = 6 + 6 * f := by omega
    rw [ht, List.take_add]

/-- A run whose upsert has 13 points (batches of 6, 6, 1) and whose store
acknowledges only the first batch. -/
def collabBatchFail : Collaborators :=
  { collabBase with
      chunksOf := fun _ _ => (List.range 13).map (fun i => "c" ++ toString i)
      batchAck := fun i => i == 0 }

/-- Claim C8 counterexample: a 13-point upsert whose second batch fails
aborts with the upsert error after issuing exactly 2 of the 3 batches and
persisting exactly the 6 points of the acknowledged batch — but the run
REPORTS no acknowledged count at all: the only count-reporting line
(`Uploaded .. embeddings ..`, line 184) is never printed, the last line
printed being the pre-upsert `Uploading embeddings to Qdrant...`. -/
theorem claim_C8_counterexample :
    (runMain collabBatchFail ["prog", "doc.pdf"]).result = .error .upsertError ∧
    ((runMain collabBatchFail ["prog", "doc.pdf"]).ops.filter StoreOp.isUpsert).length = 2 ∧
    (((runMain collabBatchFail ["prog", "doc.pdf"]).store.getD 0 ("", [])).2).length = 6 ∧
    "Uploaded 6 embeddings to Qdrant" ∉ (runMain collabBatchFail ["prog", "doc.pdf"]).printed ∧
    (runMain collabBatchFail ["prog", "doc.pdf"]).printed.getLast?
      = some "Uploading embeddings to Qdrant..." :=
  ⟨by rfl, by rfl, by rfl, by decide, by rfl⟩

/-- Claim C8 as amended: when batch `f` of an upsert fails after batches
`0 .. f-1` were acknowledged, the run fails with the propagated upsert
error, exactly the first `f + 1` batches were issued (none after the
failure), exactly the `6 * f` points of the `f` acknowledged batches are
persisted — but the run reports NO acknowledged count: nothing is printed
after the failure, the last stdout line being the pre-upsert
`Uploading embeddings to Qdrant...`. -/
theorem claim_C8_amended (c : Collaborators) (p text : String)
    (vectors : List (List Float)) (f : Nat)
    (hp1 : p ≠ "--debug") (hp2 : p ≠ "--collection")
    (hex : c.extract_text p = .ok text)
    (hr : c.reachable 0 = true)
    (hstore : c.store0 = [])
    (hm : c.tryNewModel = .ok ())
    (hemb : c.embed (c.chunksOf text 200) = .ok vectors)
    (hlen : vectors.length = (c.chunksOf text 200).length)
    (hackf : ∀ i, i < f → c.batchAck i = true)
    (hfail : c.batchAck f = false)
    (hflen : 6 * f < vectors.length) :
    ∃ pts, buildPoints c.new_v4 (fileNameOf p) (c.chunksOf text 200) vectors = some pts ∧
      (runMain c ["prog", p]).result = .error .upsertError ∧
      ((runMain c ["prog", p]).ops.filter StoreOp.isUpsert)
        = (List.range (f + 1)).map (fun i => StoreOp.upsertBatch "test" (batchAt 6 pts i)) ∧
      (runMain c ["prog", p]).store = [("test", pts.take (6 * f))] ∧
      (pts.take (6 * f)).length = 6 * f ∧
      (runMain c ["prog", p]).printed.getLast? = some "Uploading embeddings to Qdrant..." := by
  have hparse : parseArgs ["prog", p] = .ok ⟨200, false, "test"⟩ := by
    simp [parseArgs, parseLoop, hp1, hp2]
  obtain ⟨pts, hb, hblen, _⟩ :=
    buildPointsAux_complete c.new_v4 (fileNameOf p) (c.chunksOf text 200) vectors 0 (by omega)
  have hplen : pts.length = vectors.length := hblen
  have hens : ensureCollection "test" c.store0 c.stdin =
      ⟨none, [("test", [])], [.createCollection "test" 384 .cosine], [], c.stdin⟩ := by
    rw [hstore]
    simp [ensureCollection, existsIn]
  have hup := runBatches_fail c.batchAck "test" f pts 0
    (fun i hi => by simpa using hackf i hi) (by simpa using hfail) (by omega)
  obtain ⟨hres, hops, hst, hpr⟩ :=
    runMain_pipeline c ["prog", p] ⟨200, false, "test"⟩ text vectors pts
      _ false _ _ hparse hex hr hens rfl hm hemb hb hup
  refine ⟨pts, hb, by simpa using hres, ?_, ?_, ?_, ?_⟩
  · rw [hops]
    simp only [StoreOp.isUpsert, List.filter_map, List.cons_append, List.filter_cons,
      List.nil_append]
    have hfs : List.filter
        (StoreOp.isUpsert ∘ fun i => StoreOp.upsertBatch "test" (batchAt 6 pts i))
        (List.range (f + 1)) = List.range (f + 1) :=
      List.filter_eq_self.mpr (fun a _ => rfl)
    rw [hfs]
    simp
  · rw [hst]
    simp [updateStore]
  · rw [List.length_take]
    omega
  · rw [hpr]
    simp [pipelinePrints, List.getLast?]

/-- Witness for the amended C8 at a concrete input (13 points, second
batch rejected). -/
theorem claim_C8_amended_witness :
    (("doc.pdf" : String) ≠ "--debug" ∧ ("doc.pdf" : String) ≠ "--collection" ∧
     collabBatchFail.extract_text "doc.pdf" = .ok "hello world" ∧
     collabBatchFail.reachable 0 = true ∧
     collabBatchFail.store0 = [] ∧
     collabBatchFail.tryNewModel = .ok () ∧
     collabBatchFail.embed (collabBatchFail.chunksOf "hello world" 200)
       = .ok (((List.range 13).map (fun i => "c" ++ toString i)).map
           (fun _ => ([] : List Float))) ∧
     collabBatchFail.batchAck 1 = false ∧
     6 * 1 < (((List.range 13).map (fun i => "c" ++ toString i)).map
           (fun _ => ([] : List Float))).length) ∧
    (∃ pts,
      buildPoints collabBatchFail.new_v4 (fileNameOf "doc.pdf")
          (collabBatchFail.chunksOf "hello world" 200)
          (((List.range 13).map (fun i => "c" ++ toString i)).map
            (fun _ => ([] : List Float))) = some pts ∧
      (runMain collabBatchFail ["prog", "doc.pdf"]).result = .error .upsertError ∧
      ((runMain collabBatchFail ["prog", "doc.pdf"]).ops.filter StoreOp.isUpsert)
        = (List.range (1 + 1)).map (fun i => StoreOp.upsertBatch "test" (batchAt 6 pts i)) ∧
      (runMain collabBatchFail ["prog", "doc.pdf"]).store = [("test", pts.take (6 * 1))] ∧
      (pts.take (6 * 1)).length = 6 * 1 ∧
      (runMain collabBatchFail ["prog", "doc.pdf"]).printed.getLast?
        = some "Uploading embeddings to Qdrant...") :=
  ⟨⟨by decide, by decide, rfl, rfl, rfl, rfl, rfl, rfl, by decide⟩,
   claim_C8_amended collabBatchFail "doc.pdf" "hello world"
     (((List.range 13).map (fun i => "c" ++ toString i)).map (fun _ => ([] : List Float))) 1
     (by decide) (by decide) rfl rfl rfl rfl rfl rfl
     (fun i hi => by
       have h0 : i = 0 := by omega
       subst h0
       rfl)
     rfl (by decide)⟩

/-- Whether an op carries at most `w` points. -/
def StoreOp.withinWidth (w : Nat) (op : StoreOp) : Bool :=
  decide (op.batchSize ≤ w)

theorem toBatches_mem_length (w : Nat) (pts : List PointStruct) :
    ∀ b ∈ toBatches w pts, b.length ≤ w := by
  intro b hb
  simp only [toBatches, List.mem_map] at hb
  obtain ⟨i, -, rfl⟩ := hb
  simp only [batchAt, List.length_take]
  omega

theorem runBatches_ops_bound (ack : Nat → Bool) (name : String) (w : Nat) :
    ∀ (bs : List (List PointStruct)) (idx : Nat), (∀ b ∈ bs, b.length ≤ w) →
      ∀ op ∈ (runBatches ack name bs idx).2.1, op.batchSize ≤ w := by
  intro bs
  induction bs with
  | nil =>
    intro idx _ op hop
    simp [runBatches] at hop
  | cons b bs ih =>
    intro idx h op hop
    rcases hr : runBatches ack name bs (idx + 1) with ⟨ok, ops, acked⟩
    by_cases ha : ack idx = true
    · simp only [runBatches, ha, if_true, hr, List.mem_cons] at hop
      rcases hop with rfl | hop
      · exact h b (List.mem_cons_self b bs)
      · exact ih (idx + 1) (fun b' hb' => h b' (List.mem_cons_of_mem b hb')) op
          (by rw [hr]; exact hop)
    · have ha' : ack idx = false := by
        cases hb : ack idx
        · rfl
        · exact absurd hb ha
      simp only [runBatches, ha'] at hop
      simp at hop
      subst hop
      exact h b (List.mem_cons_self b bs)

theorem ensure_ops_zero (name : String) (store : Store) (stdin : List String) :
    ∀ op ∈ (ensureCollection name store stdin).ops, op.batchSize = 0 := by
  intro op hop
  unfold ensureCollection at hop
  by_cases hex : existsIn store name = true
  · simp only [hex, if_true] at hop
    cases stdin with
    | nil => simp at hop
    | cons l rest =>
      by_cases hl : trimLowerAnswer l = "n"
      · simp [hl] at hop
      · simp only [hl, if_neg, if_false] at hop
        simp only [List.mem_cons, List.not_mem_nil, or_false] at hop
        rcases hop with rfl | rfl <;> rfl
  · have hex' : existsIn store name = false := by
      cases hb : existsIn store name
      · rfl
      · exact absurd hb hex
    simp only [hex'] at hop
    simp at hop
    subst hop
    rfl

/-- Claim C10: for every run — whatever the command-line arguments and the
collaborator behaviours — the upsert stage is issued through the single
batched blocking call with the fixed batch width 6 (`src/src/main.rs`
line 182): every store op the run ever issues carries at most `batchWidth`
points, and `batchWidth` is the constant 6, not influenced by any argument
or configuration. -/
theorem claim_C10_batch_width (c : Collaborators) (args : List String) :
    ((runMain c args).ops).all (StoreOp.withinWidth batchWidth) = true ∧ batchWidth = 6 := by
  refine ⟨?_, rfl⟩
  rw [List.all_eq_true]
  intro op hop
  suffices h : op.batchSize ≤ 6 by
    simp only [StoreOp.withinWidth, batchWidth, decide_eq_true_eq]
    exact h
  rcases hp : parseArgs args with _ | _ | cfg
  · simp [runMain, hp] at hop
  · simp [runMain, hp] at hop
  · simp only [runMain, hp] at hop
    simp only [runPipeline] at hop
    rcases hext : c.extract_text (args.getD 1 "") with e | text
    · simp only [hext] at hop
      simp at hop
    · simp only [hext] at hop
      rcases hcl : connectLoop c.reachable c.stdin 0 with ⟨err, stdin1, prC⟩
      simp only [hcl] at hop
      cases err with
      | some e => simp at hop
      | none =>
        rcases hense : (ensureCollection cfg.collection_name c.store0 stdin1).err with _ | e
        · simp only [hense] at hop
          have hens0 := ensure_ops_zero cfg.collection_name c.store0 stdin1
          rcases hm : c.tryNewModel with e | u
          · simp only [hm] at hop
            simp only [List.mem_cons] at hop
            rcases hop with rfl | hop
            · exact Nat.zero_le 6
            · rw [hens0 op hop]
              exact Nat.zero_le 6
          · simp only [hm] at hop
            rcases hemb : c.embed (c.chunksOf text cfg.chunk_size) with e | vectors
            · simp only [hemb] at hop
              simp only [List.mem_cons] at hop
              rcases hop with rfl | hop
              · exact Nat.zero_le 6
              · rw [hens0 op hop]
                exact Nat.zero_le 6
            · simp only [hemb] at hop
              rcases hbp : buildPoints c.new_v4 (fileNameOf (args.getD 1 ""))
                  (c.chunksOf text cfg.chunk_size) vectors with _ | pts
              · simp only [hbp] at hop
                simp only [List.mem_cons] at hop
                rcases hop with rfl | hop
                · exact Nat.zero_le 6
                · rw [hens0 op hop]
                  exact Nat.zero_le 6
              · simp only [hbp] at hop
                rcases hub : runBatches c.batchAck cfg.collection_name
                    (toBatches batchWidth pts) 0 with ⟨ok, ops2, acked⟩
                simp only [hub] at hop
                have hops2 : ∀ o ∈ ops2, o.batchSize ≤ 6 := by
                  intro o ho
                  refine runBatches_ops_bound c.batchAck cfg.collection_name 6
                    (toBatches batchWidth pts) 0 (toBatches_mem_length 6 pts) o ?_
                  rw [hub]
                  exact ho
                cases ok with
                | true =>
                  simp at hop
                  rcases hop with rfl | hop | hop
                  · exact Nat.zero_le 6
                  · rw [hens0 op hop]
                    exact Nat.zero_le 6
                  · exact hops2 op hop
                | false =>
                  simp at hop
                  rcases hop with rfl | hop | hop
                  · exact Nat.zero_le 6
                  · rw [hens0 op hop]
                    exact Nat.zero_le 6
                  · exact hops2 op hop
        · simp only [hense] at hop
          simp only [List.mem_cons] at hop
          rcases hop with rfl | hop
          · exact Nat.zero_le 6
          · rw [ensure_ops_zero cfg.collection_name c.store0 stdin1 op hop]
            exact Nat.zero_le 6

/-- Invariant proof for the spec-modelled chunker: whenever
`chunkSpecGo` is called with a current segment whose token count is within
budget, every segment of a successful result is within budget. -/
theorem chunkSpecGo_bound (tc : String → Nat) (budget : Nat) :
    ∀ (us cur : List String) (curTok : Nat) (segs : List (List String)),
      curTok ≤ budget → curTok = (cur.map tc).sum →
      chunkSpecGo tc budget cur curTok us = .ok segs →
      ∀ seg ∈ segs, (seg.map tc).sum ≤ budget := by
  intro us
  induction us with
  | nil =>
    intro cur curTok segs h1 h2 h3 seg hseg
    simp only [chunkSpecGo] at h3
    by_cases hc : cur.isEmpty
    · rw [if_pos hc] at h3
      injection h3 with h3
      subst h3
      simp at hseg
    · rw [if_neg hc] at h3
      injection h3 with h3
      subst h3
      simp only [List.mem_singleton] at hseg
      subst hseg
      rw [List.map_reverse, List.sum_reverse, ← h2]
      exact h1
  | cons u us ih =>
    intro cur curTok segs h1 h2 h3 seg hseg
    simp only [chunkSpecGo] at h3
    by_cases hu : budget < tc u
    · rw [if_pos hu] at h3
      cases h3
    · rw [if_neg hu] at h3
      by_cases hfit : curTok + tc u ≤ budget
      · rw [if_pos hfit] at h3
        exact ih (u :: cur) (curTok + tc u) segs hfit
          (by simp [← h2, Nat.add_comm]) h3 seg hseg
      · rw [if_neg hfit] at h3
        rcases hrec : chunkSpecGo tc budget [u] (tc u) us with e | segs2
        · rw [hrec] at h3
          cases h3
        · rw [hrec] at h3
          injection h3 with h3
          rw [← h3] at hseg
          rcases List.mem_cons.mp hseg with hseg2 | hseg2
          · subst hseg2
            rw [List.map_reverse, List.sum_reverse, ← h2]
            exact h1
          · exact ih [u] (tc u) segs2 (Nat.le_of_not_lt hu) (by simp) hrec seg hseg2

/-- Claim C9: every chunk the chunker produces has token count at most the
budget — a property of the splitting algorithm inside the third-party
`text_splitter` crate, modelled from the spec (§4.1): greedy left-to-right
packing of the tokenizer's indivisible units, where a chunk's token count
is the sum of its units' counts, can only return segments within budget
(it fails with `ChunkConfigError` rather than emit an over-budget
segment). -/
theorem claim_C9_chunk_bound (tc : String → Nat) (units : List String) (budget : Nat)
    (segs : List (List String)) (h : chunkSpec tc units budget = .ok segs) :
    ∀ seg ∈ segs, (seg.map tc).sum ≤ budget :=
  chunkSpecGo_bound tc budget units [] 0 segs (Nat.zero_le budget) rfl h

/-- Witness for C9 at a concrete input: token counts by `String.length`,
units `["ab", "c", "d"]`, budget 2 — the chunker returns
`[["ab"], ["c", "d"]]`, and the first segment's token count is within the
budget (by the claim theorem). -/
theorem claim_C9_chunk_bound_witness :
    ((["ab"] : List String).map String.length).sum ≤ 2 :=
  claim_C9_chunk_bound String.length ["ab", "c", "d"] 2 [["ab"], ["c", "d"]] (by rfl)
    ["ab"] (by simp)

end QdrantPdfUploader
